import Mathlib

/-!
Verification of the django-revolution zone/generation orchestration engine.

This file shallowly embeds the parts of the code base that the checked
properties are about:

* `config.py` — `ZoneModel` construction and the `validate_zones` field
  validator of `DjangoRevolutionSettings` (zone registry construction);
* `openapi/generator.py` — `_generate_single_schema`, `generate_schemas`,
  `generate_typescript_clients`, `generate_python_clients`, `generate_all`
  and the monorepo-sync dispatch inside `generate_all`;
* `openapi/archive_manager.py` — `archive_zone_clients` and
  `clean_old_archives`.

External collaborators (the schema-extraction CLI, the TypeScript and
Python generator CLIs, the filesystem, and the dynamic URLconf synthesizer,
whose module `zones.py` is not part of the sources) are modelled as
deterministic oracles supplied in an environment record.  Thread-pool
completion order is modelled by an arbitrary scheduling function on the
submitted work items.  Wall-clock time is modelled as the constant 0.
-/

namespace DjangoRevolution

/-- Assoc-list lookup used to model Python dict access keyed by zone name. -/
def lookup? {β : Type} (l : List (String × β)) (k : String) : Option β :=
  match l with
  | [] => none
  | (k', v) :: rest => if k' = k then some v else lookup? rest k

/-- Pydantic `ZoneModel` (config.py).  Field `path_prefix` is rendered as
`path_pfx`.  Only the fields relevant to the checked claims are kept. -/
structure ZoneModel where
  name : String
  apps : List String
  title : Option String
  version : String
  path_pfx : Option String
  deriving Repr, DecidableEq

/-- Raw zone configuration dictionary (the values of the `zones` mapping
fed to `DjangoRevolutionSettings`). -/
structure RawZoneConfig where
  apps : List String
  title : Option String := none
  version : String := "v1"
  path_pfx : Option String := none
  deriving Repr, DecidableEq

/-- Python `str.strip()` (whitespace strip, as applied by pydantic's
`str_strip_whitespace`), executable over the character list. -/
def pyStrip (s : String) : String :=
  ⟨((s.data.dropWhile Char.isWhitespace).reverse.dropWhile Char.isWhitespace).reverse⟩

/-- Python `str.lower()`, executable over the character list. -/
def pyLower (s : String) : String :=
  ⟨s.data.map Char.toLower⟩

/-- Construction of a pydantic-v2 `ZoneModel` (config.py lines 18-61).
String fields are whitespace-stripped (`str_strip_whitespace=True`), the
name must be non-empty after stripping and is lower-cased by
`validate_name`, and `apps` must be non-empty (`validate_apps`).

The method `__post_init_post_parse__` of the source class, which would
default `path_prefix` to the zone name, is a pydantic-v1 hook that
pydantic v2 never invokes (and the model is frozen, so its assignments
would fail); accordingly the constructed model keeps `path_pfx` exactly
as given. -/
def buildZone (nm : String) (rc : RawZoneConfig) : Except String ZoneModel :=
  if (pyStrip nm).length = 0 then .error "Zone name cannot be empty"
  else if rc.apps.length = 0 then .error "Apps list cannot be empty"
  else .ok
    { name := pyLower (pyStrip nm)
      apps := rc.apps.map pyStrip
      title := rc.title.map pyStrip
      version := pyStrip rc.version
      path_pfx := rc.path_pfx.map pyStrip }

/-- Effective URL path marker of a zone as computed by `validate_zones`
(config.py line 257): `zone_model.path_prefix or zone_name`, where both
`None` and the empty string are falsy in Python. -/
def effectivePfx (zoneName : String) (z : ZoneModel) : String :=
  match z.path_pfx with
  | none => zoneName
  | some p => if p = "" then zoneName else p

/-- Loop body of the `validate_zones` field validator (config.py lines
234-264): each zone config is validated into a `ZoneModel`; an app already
claimed by an earlier zone or an effective path marker already used raises
a `ValueError`. -/
def validateZonesGo : List (String × RawZoneConfig) → List String → List String →
    Except String Unit
  | [], _, _ => .ok ()
  | (n, rc) :: rest, seenApps, seenPfx =>
    match buildZone n rc with
    | .error e => .error e
    | .ok z =>
      if z.apps.any (fun a => seenApps.contains a) then
        .error "Duplicate apps across zones"
      else if seenPfx.contains (effectivePfx n z) then
        .error "Duplicate path marker"
      else
        validateZonesGo rest (seenApps ++ z.apps) (seenPfx ++ [effectivePfx n z])

/-- The `validate_zones` field validator of `DjangoRevolutionSettings`
(config.py lines 234-264).  On success it returns the whole input mapping
unchanged (`validated_zones[zone_name] = zone_config`); any violation
raises, so no partial registry is ever produced. -/
def validate_zones (v : List (String × RawZoneConfig)) :
    Except String (List (String × RawZoneConfig)) :=
  match validateZonesGo v [] [] with
  | .ok _ => .ok v
  | .error e => .error e

/-- Per-zone, per-client-type generation result (config.py lines 166-175). -/
structure GenerationResult where
  success : Bool
  zone_name : String
  output_path : String
  files_generated : Nat
  error_message : String
  deriving Repr, DecidableEq

/-- Aggregate result of one `generate_all` run (config.py lines 178-191);
wall-clock duration is modelled as a constant 0. -/
structure GenerationSummary where
  total_zones : Nat
  successful_typescript : Nat
  successful_python : Nat
  failed_typescript : Nat
  failed_python : Nat
  total_files_generated : Nat
  duration_seconds : Nat
  typescript_results : List (String × GenerationResult)
  python_results : List (String × GenerationResult)
  deriving Repr, DecidableEq

/-- Observable outcome of one external schema-extraction attempt for one
zone (the `run_command` call in `_generate_single_schema` plus the state
of the output file afterwards).  `fileNonEmpty` records whether the file
left on disk has content; the generator code never consults it. -/
structure SchemaToolOutcome where
  raisesExc : Bool
  exitOk : Bool
  fileOnDisk : Bool
  fileNonEmpty : Bool
  deriving Repr, DecidableEq

/-- Deterministic environment for a generation run: the external-tool
oracles and the thread-pool completion order.

`urlconfOk` — Modelled from the spec: the Dynamic Routing Synthesizer
(`zone_manager.create_dynamic_urlconf_module`, module `zones.py`, absent
from the sources) either yields a routing-namespace handle for a zone or
fails; only success/failure is observable to the generator.

`sched` reorders each batch of work items submitted to a thread pool into
its completion order; a run of the sequential path never consults it. -/
structure GenEnv : Type 1 where
  urlconfOk : String → Bool
  schemaTool : String → SchemaToolOutcome
  tsGen : String → String → GenerationResult
  pyGen : String → String → GenerationResult
  managePyFound : Bool
  sched : {α : Type} → List α → List α

/-- Configuration slice of `DjangoRevolutionSettings` consumed by
`OpenAPIGenerator`, with the validated registry (`zone_manager.zones`). -/
structure Config where
  enable_multithreading : Bool
  max_workers : Nat
  ts_enabled : Bool
  py_enabled : Bool
  monorepo_enabled : Bool
  zones : List (String × ZoneModel)

/-- Schema output path `schemas/<zone>.yaml` for a zone
(generator.py line 130). -/
def schemaFilePath (zone_name : String) : String :=
  "schemas/" ++ zone_name ++ ".yaml"

/-- `_generate_single_schema` (generator.py lines 113-165): any exception
is caught and reported as `none`; a falsy URLconf handle yields `none`;
otherwise the zone maps to its schema file exactly when the tool exits 0
AND `schema_file.exists()` — the file's content is never inspected. -/
def generateSingleSchema (env : GenEnv) (zone_name : String) : String × Option String :=
  if (env.schemaTool zone_name).raisesExc then (zone_name, none)
  else if env.urlconfOk zone_name = false then (zone_name, none)
  else if (env.schemaTool zone_name).exitOk && (env.schemaTool zone_name).fileOnDisk then
    (zone_name, some (schemaFilePath zone_name))
  else (zone_name, none)

/-- Zone filtering at the head of `generate_schemas` and `generate_all`:
a falsy (absent or empty) `zones` argument selects the whole registry,
otherwise the registry entries whose names occur in the argument. -/
def zonesToProcess (registry : List (String × ZoneModel)) (zones : Option (List String)) :
    List (String × ZoneModel) :=
  match zones with
  | none => registry
  | some zs => if zs.isEmpty then registry else registry.filter (fun p => zs.contains p.1)

/-- Record of which execution path a stage took and the worker-pool size
it created, if any. -/
structure StageTrace where
  usedParallel : Bool
  poolSize : Option Nat
  deriving Repr, DecidableEq

/-- `generate_schemas` (generator.py lines 167-254) together with its
execution trace.  The parallel branch is guarded by
`enable_multithreading and len(zones_to_process) > 1 and max_workers > 1`
and creates a pool of `min(max_workers, len(zones_to_process))` workers;
results are gathered in completion order into a name-keyed map, dropping
zones whose schema is `None`.  The sequential branch iterates in mapping
order.  An empty zone set or a missing `manage.py` returns the empty map
up front. -/
def generateSchemasT (cfg : Config) (env : GenEnv) (zones : Option (List String)) :
    List (String × String) × StageTrace :=
  let ztp := zonesToProcess cfg.zones zones
  if ztp.isEmpty then ([], ⟨false, none⟩)
  else if env.managePyFound = false then ([], ⟨false, none⟩)
  else
    let names := ztp.map Prod.fst
    if cfg.enable_multithreading && decide (ztp.length > 1) && decide (cfg.max_workers > 1) then
      (((env.sched names).filterMap fun n =>
          (generateSingleSchema env n).2.map fun p => (n, p)),
        ⟨true, some (min cfg.max_workers ztp.length)⟩)
    else
      ((names.filterMap fun n => (generateSingleSchema env n).2.map fun p => (n, p)),
        ⟨false, none⟩)

/-- Result map of `generate_schemas`. -/
def generate_schemas (cfg : Config) (env : GenEnv) (zones : Option (List String)) :
    List (String × String) :=
  (generateSchemasT cfg env zones).1

/-- `HeyAPITypeScriptGenerator.generate_all` (heyapi_ts.py lines 125-150):
a plain loop producing one `GenerationResult` per schema. -/
def tsGenerateAll (env : GenEnv) (schemas : List (String × String)) :
    List (String × GenerationResult) :=
  schemas.map fun p => (p.1, env.tsGen p.1 p.2)

/-- `PythonClientGenerator.generate_all` (python_client.py lines 217-242). -/
def pyGenerateAll (env : GenEnv) (schemas : List (String × String)) :
    List (String × GenerationResult) :=
  schemas.map fun p => (p.1, env.pyGen p.1 p.2)

/-- `generate_typescript_clients` (generator.py lines 256-336) with its
trace.  Disabled generation returns the empty map; the parallel branch is
guarded by `enable_multithreading and len(schemas) > 1 and
max_workers > 1` with a pool of `min(max_workers, len(schemas))`, results
collected in completion order; the sequential branch delegates to the
per-generator loop. -/
def generateTypescriptClientsT (cfg : Config) (env : GenEnv)
    (schemas : List (String × String)) :
    List (String × GenerationResult) × StageTrace :=
  if cfg.ts_enabled = false then ([], ⟨false, none⟩)
  else if cfg.enable_multithreading && decide (schemas.length > 1)
      && decide (cfg.max_workers > 1) then
    (((env.sched schemas).map fun p => (p.1, env.tsGen p.1 p.2)),
      ⟨true, some (min cfg.max_workers schemas.length)⟩)
  else
    (tsGenerateAll env schemas, ⟨false, none⟩)

/-- Result map of `generate_typescript_clients`. -/
def generate_typescript_clients (cfg : Config) (env : GenEnv)
    (schemas : List (String × String)) : List (String × GenerationResult) :=
  (generateTypescriptClientsT cfg env schemas).1

/-- `generate_python_clients` (generator.py lines 338-418) with its trace. -/
def generatePythonClientsT (cfg : Config) (env : GenEnv)
    (schemas : List (String × String)) :
    List (String × GenerationResult) × StageTrace :=
  if cfg.py_enabled = false then ([], ⟨false, none⟩)
  else if cfg.enable_multithreading && decide (schemas.length > 1)
      && decide (cfg.max_workers > 1) then
    (((env.sched schemas).map fun p => (p.1, env.pyGen p.1 p.2)),
      ⟨true, some (min cfg.max_workers schemas.length)⟩)
  else
    (pyGenerateAll env schemas, ⟨false, none⟩)

/-- Result map of `generate_python_clients`. -/
def generate_python_clients (cfg : Config) (env : GenEnv)
    (schemas : List (String × String)) : List (String × GenerationResult) :=
  (generatePythonClientsT cfg env schemas).1

/-- Failed result inserted by `generate_all` when a per-zone sub-call
returns a map without that zone (generator.py lines 625-640). -/
def noResultFailure (zone : String) : GenerationResult :=
  { success := false, zone_name := zone, output_path := ""
    files_generated := 0, error_message := "No result returned" }

/-- One TypeScript task of the combined client stage of `generate_all`
(generator.py lines 593-600): `generate_typescript_clients` on the
single-zone map, then `result.get(zone, failed-default)`. -/
def tsTask (cfg : Config) (env : GenEnv) (zone path : String) : GenerationResult :=
  match lookup? (generate_typescript_clients cfg env [(zone, path)]) zone with
  | some r => r
  | none => noResultFailure zone

/-- One Python task of the combined client stage of `generate_all`
(generator.py lines 603-610). -/
def pyTask (cfg : Config) (env : GenEnv) (zone path : String) : GenerationResult :=
  match lookup? (generate_python_clients cfg env [(zone, path)]) zone with
  | some r => r
  | none => noResultFailure zone

/-- Collection loop of the combined client stage (generator.py lines
619-654): completed tasks are routed into the TypeScript or Python result
map according to their tag.  A work item is `(isTs, zone, schemaPath)`. -/
def collectClientTasks (cfg : Config) (env : GenEnv) :
    List (Bool × String × String) →
    List (String × GenerationResult) × List (String × GenerationResult)
  | [] => ([], [])
  | (isTs, zone, path) :: rest =>
    let acc := collectClientTasks cfg env rest
    if isTs then ((zone, tsTask cfg env zone path) :: acc.1, acc.2)
    else (acc.1, (zone, pyTask cfg env zone path) :: acc.2)

/-- Per-list success count (`sum(1 for r in results.values() if r.success)`). -/
def countSuccess (rs : List (String × GenerationResult)) : Nat :=
  (rs.filter fun p => p.2.success).length

/-- Total files over successful results. -/
def sumFiles (rs : List (String × GenerationResult)) : Nat :=
  ((rs.filter fun p => p.2.success).map fun p => p.2.files_generated).sum

/-- Summary assembly at the tail of `generate_all` (generator.py lines
684-707); wall-clock duration is modelled as 0. -/
def mkSummary (totalZones : Nat) (tsResults pyResults : List (String × GenerationResult)) :
    GenerationSummary :=
  { total_zones := totalZones
    successful_typescript := countSuccess tsResults
    successful_python := countSuccess pyResults
    failed_typescript := tsResults.length - countSuccess tsResults
    failed_python := pyResults.length - countSuccess pyResults
    total_files_generated := sumFiles tsResults + sumFiles pyResults
    duration_seconds := 0
    typescript_results := tsResults
    python_results := pyResults }

/-- All-zero summary returned when environment validation fails or no
requested zone exists (generator.py lines 536-546 and 556-566). -/
def zeroSummary : GenerationSummary :=
  { total_zones := 0, successful_typescript := 0, successful_python := 0
    failed_typescript := 0, failed_python := 0, total_files_generated := 0
    duration_seconds := 0, typescript_results := [], python_results := [] }

/-- Main body of `generate_all` once the zones to process are fixed
(generator.py lines 574-716).  `clean_output`, the consolidated index and
the archive stage catch their own exceptions and do not affect the
summary.  The monorepo-sync step reproduces the source faithfully: the
sequential path calls `MonorepoSync.sync_all` and the multithreaded path
(after an early return when no TypeScript result succeeded) accesses
`MonorepoSync.sync_zone`; neither attribute exists on `MonorepoSync`
(monorepo_sync.py defines only `sync_all_clients` and friends), so Python
raises `AttributeError` out of `generate_all`, modelled as `.error`.

This definition is the combined client stage of `generate_all`
(generator.py lines 580-663): with multithreading on, more than one
schema and more than one worker, one task per zone per client type is
submitted and collected in completion order; otherwise the two per-type
stage functions run sequentially. -/
def clientStageResults (cfg : Config) (env : GenEnv)
    (schemas : List (String × String)) :
    List (String × GenerationResult) × List (String × GenerationResult) :=
  if cfg.enable_multithreading && decide (schemas.length > 1)
      && decide (cfg.max_workers > 1) then
    collectClientTasks cfg env
      (env.sched ((schemas.map fun p => (true, p.1, p.2))
        ++ (schemas.map fun p => (false, p.1, p.2))))
  else
    (generate_typescript_clients cfg env schemas,
      generate_python_clients cfg env schemas)

/-- Tail of `generate_all` once the zones to process are fixed: schema
stage, combined client stage, then the monorepo-sync step (see the
comment above for the `AttributeError` modelling). -/
def generateAllMain (cfg : Config) (env : GenEnv)
    (ztp : List (String × ZoneModel)) : Except String GenerationSummary :=
  let schemas := generate_schemas cfg env (some (ztp.map Prod.fst))
  let results := clientStageResults cfg env schemas
  if cfg.monorepo_enabled then
    if cfg.enable_multithreading && decide (results.1.length > 1)
        && decide (cfg.max_workers > 1) then
      if (results.1.filter fun p => p.2.success).isEmpty then
        .ok (mkSummary ztp.length results.1 results.2)
      else
        .error "AttributeError: MonorepoSync object has no attribute sync_zone"
    else
      .error "AttributeError: MonorepoSync object has no attribute sync_all"
  else
    .ok (mkSummary ztp.length results.1 results.2)

/-- `generate_all` (generator.py lines 517-716).  Environment validation
fails (all-zero summary) only when the registry is empty; a truthy
`zones` argument selecting no registry zone also short-circuits to the
all-zero summary.  The `archive` flag does not influence the summary
(the archive stage records its results separately and catches its own
failures), so it is not a parameter of the model. -/
def generateAll (cfg : Config) (env : GenEnv) (zones : Option (List String)) :
    Except String GenerationSummary :=
  if cfg.zones.isEmpty then .ok zeroSummary
  else
    match zones with
    | none => generateAllMain cfg env cfg.zones
    | some zs =>
      if zs.isEmpty then generateAllMain cfg env cfg.zones
      else
        let ztp := cfg.zones.filter fun p => zs.contains p.1
        if ztp.isEmpty then .ok zeroSummary
        else generateAllMain cfg env ztp

/-- Decision and pool creation of the monorepo-sync step of `generate_all`
(generator.py lines 674-682 and `_sync_to_monorepo_multithreaded`, lines
454-515): the multithreaded path is entered when
`enable_multithreading and len(typescript_results) > 1 and
max_workers > 1`; inside it, the pool is created only when at least one
TypeScript result succeeded and has `min(max_workers,
len(successful_zones))` workers. -/
def syncStageTrace (cfg : Config) (tsResults : List (String × GenerationResult)) :
    StageTrace :=
  if cfg.enable_multithreading && decide (tsResults.length > 1)
      && decide (cfg.max_workers > 1) then
    let successfulZones := tsResults.filter fun p => p.2.success
    if successfulZones.isEmpty then ⟨true, none⟩
    else ⟨true, some (min cfg.max_workers successfulZones.length)⟩
  else ⟨false, none⟩

/-- Numeric value of a list of decimal digit characters. -/
def natOfDigits (cs : List Char) : Nat :=
  cs.foldl (fun acc c => 10 * acc + (c.toNat - 48)) 0

/-- Leap-year rule of the proleptic Gregorian calendar used by
`datetime`. -/
def isLeapYear (y : Nat) : Bool :=
  y % 4 = 0 && (y % 100 ≠ 0 || y % 400 = 0)

/-- Days in a month as validated by `datetime` construction. -/
def daysInMonth (y m : Nat) : Nat :=
  if m = 2 then (if isLeapYear y then 29 else 28)
  else if m = 4 || m = 6 || m = 9 || m = 11 then 30
  else 31

/-- Day number of a civil date (days since 1970-01-01, Gregorian),
following the standard days-from-civil computation. -/
def daysFromCivil (y m d : Nat) : Int :=
  let y' : Int := if m ≤ 2 then (y : Int) - 1 else (y : Int)
  let era : Int := (if 0 ≤ y' then y' else y' - 399) / 400
  let yoe : Int := y' - era * 400
  let mp : Int := ((m : Int) + 9) % 12
  let doy : Int := (153 * mp + 2) / 5 + (d : Int) - 1
  let doe : Int := yoe * 365 + yoe / 4 - yoe / 100 + doy
  era * 146097 + doe - 719468

/-- Day group of the CPython strptime regex for `%d`, the alternation
`3[0-1]|[1-2]\d|0[1-9]|[1-9]| [1-9]` (the last alternative is a literal
space followed by a non-zero digit), tried left to right; returns the
parsed day value and the unconsumed suffix.  Digits are modelled as
ASCII, which is what `strftime('%Y%m%d_%H%M%S')` emits. -/
def matchDay : List Char → Option (Nat × List Char)
  | c1 :: c2 :: rest =>
    if c1 = '3' ∧ (c2 = '0' ∨ c2 = '1') then
      some (30 + (c2.toNat - 48), rest)
    else if (c1 = '1' ∨ c1 = '2') ∧ c2.isDigit then
      some (10 * (c1.toNat - 48) + (c2.toNat - 48), rest)
    else if c1 = '0' ∧ ('1' ≤ c2 ∧ c2 ≤ '9') then
      some (c2.toNat - 48, rest)
    else if '1' ≤ c1 ∧ c1 ≤ '9' then
      some (c1.toNat - 48, c2 :: rest)
    else if c1 = ' ' ∧ ('1' ≤ c2 ∧ c2 ≤ '9') then
      some (c2.toNat - 48, rest)
    else none
  | [c1] =>
    if '1' ≤ c1 ∧ c1 ≤ '9' then some (c1.toNat - 48, []) else none
  | [] => none

/-- Month group of the CPython strptime regex for `%m`, the alternation
`1[0-2]|0[1-9]|[1-9]`, combined with the following day group under regex
backtracking: when the day group cannot match after a two-digit month,
the engine retries the one-digit month alternative (the two two-digit
month alternatives are mutually exclusive, so no other retry arises).
Returns month, day and the unconsumed suffix of the first match. -/
def matchMonthDay : List Char → Option (Nat × Nat × List Char)
  | [] => none
  | c1 :: rest1 =>
    let alt3 : Option (Nat × Nat × List Char) :=
      if '1' ≤ c1 ∧ c1 ≤ '9' then
        (matchDay rest1).map fun p => (c1.toNat - 48, p.1, p.2)
      else none
    match rest1 with
    | [] => alt3
    | c2 :: rest2 =>
      if c1 = '1' ∧ (c2 = '0' ∨ c2 = '1' ∨ c2 = '2') then
        match matchDay rest2 with
        | some p => some (10 + (c2.toNat - 48), p.1, p.2)
        | none => alt3
      else if c1 = '0' ∧ ('1' ≤ c2 ∧ c2 ≤ '9') then
        (matchDay rest2).map fun p => (c2.toNat - 48, p.1, p.2)
      else alt3

/-- The timestamp parse of `clean_old_archives` (archive_manager.py lines
454-456): `name.split('_')[0]` is parsed by
`datetime.strptime(date_str, '%Y%m%d')`.  CPython compiles this format
to the regex `(?P<Y>\d\d\d\d)(?P<m>1[0-2]|0[1-9]|[1-9])(?P<d>3[0-1]|
[1-2]\d|0[1-9]|[1-9]| [1-9])` and takes the first `re.match` per
backtracking order (the pattern is unanchored at the end): exactly four
year digits, then the month and day groups of `matchMonthDay`.  If the
match does not consume the whole string, strptime raises "unconverted
data remains"; otherwise `datetime` construction validates the date
(year at least 1 — the four digits bound it by 9999 — and the day within
the month).  The result is the day number of the parsed date (the parsed
`datetime` sits at midnight of that day).  Digits are modelled as ASCII,
which is what the archive writer emits. -/
def parseTimestampDate (nm : String) : Option Int :=
  let cs := nm.data.takeWhile fun c => c ≠ '_'
  match cs with
  | y1 :: y2 :: y3 :: y4 :: rest =>
    if y1.isDigit ∧ y2.isDigit ∧ y3.isDigit ∧ y4.isDigit then
      match matchMonthDay rest with
      | some (mon, day, remaining) =>
        if remaining.isEmpty then
          let year := natOfDigits [y1, y2, y3, y4]
          if 1 ≤ year ∧ day ≤ daysInMonth year mon then
            some (daysFromCivil year mon day)
          else none
        else none
      | none => none
    else none
  | _ => none

/-- Entry of the `archive/files/` directory as seen by `iterdir()`. -/
structure ArchiveEntry where
  name : String
  isDir : Bool
  deriving Repr, DecidableEq

/-- Outcome of `clean_old_archives`: the names of the removed
subdirectories plus the returned counters. -/
structure CleanResult where
  removed : List String
  removedCount : Nat
  keptCount : Nat
  deriving Repr, DecidableEq

/-- Removal test of `clean_old_archives` (archive_manager.py line 457):
`dir_date < cutoff_date` with `cutoff_date = datetime.now() -
timedelta(days=keep_days)` and `dir_date` at midnight of the parsed date.
Times are in seconds; `now` is the current wall-clock instant. -/
def archiveDirTooOld (now : Int) (keep_days : Nat) (dayNumber : Int) : Bool :=
  86400 * dayNumber < now - 86400 * (keep_days : Int)

/-- `clean_old_archives` (archive_manager.py lines 429-470) over the
entries of `archive/files/`: non-directories are ignored; a directory
whose name fails the timestamp parse is skipped (neither removed nor
counted); a parsed directory is removed when its date is older than the
cutoff, otherwise counted as kept. -/
def cleanOldArchives (entries : List ArchiveEntry) (now : Int) (keep_days : Nat) :
    CleanResult :=
  match entries with
  | [] => ⟨[], 0, 0⟩
  | e :: rest =>
    let acc := cleanOldArchives rest now keep_days
    if e.isDir then
      match parseTimestampDate e.name with
      | none => acc
      | some t =>
        if archiveDirTooOld now keep_days t then
          ⟨e.name :: acc.removed, acc.removedCount + 1, acc.keptCount⟩
        else
          ⟨acc.removed, acc.removedCount, acc.keptCount + 1⟩
    else acc

/-- Result of `archive_zone_clients` (the dict it returns), restricted to
the fields the claims are about. -/
structure ArchiveResult where
  success : Bool
  error_message : String
  zone_name : String
  timestamped_archive : Option String
  latest_archive : Option String
  ts_available : Bool
  py_available : Bool
  deriving Repr, DecidableEq

/-- `archive_zone_clients` (archive_manager.py lines 38-177).  With no
client path at all the call fails up front.  Otherwise a client is copied
into the staging tree only when its path exists on disk (`fsExists`), the
availability flags record exactly that, and both the timestamped and the
`latest` archive are produced from the staging tree regardless of how
many clients were available.  Filesystem primitives (mkdir, copy, zip
write) are modelled as succeeding; the claims under scrutiny concern the
control flow on missing client paths, not I/O faults. -/
def archiveZoneClients (fsExists : String → Bool) (tstamp zone_name : String)
    (typescript_path python_path : Option String) : ArchiveResult :=
  if typescript_path.isNone && python_path.isNone then
    { success := false, error_message := "No clients provided for zone"
      zone_name := zone_name, timestamped_archive := none, latest_archive := none
      ts_available := false, py_available := false }
  else
    let tsAvail := match typescript_path with
      | some p => fsExists p
      | none => false
    let pyAvail := match python_path with
      | some p => fsExists p
      | none => false
    { success := true, error_message := "", zone_name := zone_name
      timestamped_archive := some ("archive/files/" ++ tstamp ++ "/" ++ zone_name ++ ".zip")
      latest_archive := some ("archive/latest/" ++ zone_name ++ ".zip")
      ts_available := tsAvail, py_available := pyAvail }

/-- Success of one zone's schema attempt as decided by
`_generate_single_schema`: no exception, a truthy URLconf handle, a zero
exit code and an output file on disk. -/
def schemaOk (env : GenEnv) (n : String) : Bool :=
  !(env.schemaTool n).raisesExc && env.urlconfOk n
    && ((env.schemaTool n).exitOk && (env.schemaTool n).fileOnDisk)

/-- Modelled from the spec: the pure parallelism decision function of
section 4.6, `use_parallel = multithreading_enabled AND work_item_count >
1 AND max_workers > 1`. -/
def specUseParallel (enabled : Bool) (items workers : Nat) : Bool :=
  enabled && decide (items > 1) && decide (workers > 1)

/-- Modelled from the spec: the pure worker-count function of section
4.6, `worker_count = min(max_workers, work_item_count)`. -/
def specWorkerCount (workers items : Nat) : Nat :=
  min workers items

/-- Equality of two generation summaries up to reordering of the
name-keyed result maps: all scalar fields agree and the maps agree as
lookup functions. -/
def summaryEquiv (s0 s1 : GenerationSummary) : Prop :=
  s0.total_zones = s1.total_zones ∧
  s0.successful_typescript = s1.successful_typescript ∧
  s0.successful_python = s1.successful_python ∧
  s0.failed_typescript = s1.failed_typescript ∧
  s0.failed_python = s1.failed_python ∧
  s0.total_files_generated = s1.total_files_generated ∧
  s0.duration_seconds = s1.duration_seconds ∧
  (∀ k, lookup? s0.typescript_results k = lookup? s1.typescript_results k) ∧
  (∀ k, lookup? s0.python_results k = lookup? s1.python_results k)

/-- Shared-app / shared-path-marker violation between two constructible
zone entries: the relation whose pairwise complement `validate_zones`
enforces. -/
def ZonesCompatible (e1 e2 : String × RawZoneConfig) : Prop :=
  ∀ z1 z2, buildZone e1.1 e1.2 = .ok z1 → buildZone e2.1 e2.2 = .ok z2 →
    (∀ a ∈ z1.apps, a ∉ z2.apps) ∧ effectivePfx e1.1 z1 ≠ effectivePfx e2.1 z2

/-! Concrete example objects used by counterexamples and witnesses. -/

/-- Example zone `api`. -/
def zoneA : ZoneModel := ⟨"api", ["app_a"], none, "v1", none⟩

/-- Example zone `pub`. -/
def zoneB : ZoneModel := ⟨"pub", ["app_b"], none, "v1", none⟩

/-- Environment in which every external call succeeds, the TypeScript
generator emits 3 files and the Python generator 2, and a thread pool
completes tasks in submission order. -/
def envAllOk : GenEnv :=
  { urlconfOk := fun _ => true
    schemaTool := fun _ => ⟨false, true, true, true⟩
    tsGen := fun z p => ⟨true, z, p ++ "/ts", 3, ""⟩
    pyGen := fun z p => ⟨true, z, p ++ "/py", 2, ""⟩
    managePyFound := true
    sched := fun l => l }

/-- Environment identical to `envAllOk` except that every schema-tool
invocation exits 0 and leaves an EMPTY file on disk. -/
def envEmptyFile : GenEnv :=
  { envAllOk with schemaTool := fun _ => ⟨false, true, true, false⟩ }

/-- Environment identical to `envAllOk` except that the schema tool
exits non-zero for zone `api`. -/
def envApiFails : GenEnv :=
  { envAllOk with
    schemaTool := fun n =>
      if n = "api" then ⟨false, false, false, false⟩ else ⟨false, true, true, true⟩ }

/-- Two-zone registry used by the concrete examples. -/
def registry2 : List (String × ZoneModel) := [("api", zoneA), ("pub", zoneB)]

/-- Baseline configuration: sequential, both generators enabled,
monorepo integration off. -/
def cfgBase : Config :=
  { enable_multithreading := false, max_workers := 4, ts_enabled := true
    py_enabled := true, monorepo_enabled := false, zones := registry2 }

/-! Helper lemmas. -/

/-- Lookup in an assoc list every entry of which carries the value
determined by its key. -/
theorem lookup_eq_keyed {β : Type} (g : String → β) (l : List (String × β))
    (h : ∀ p ∈ l, p.2 = g p.1) (k : String) :
    lookup? l k = if k ∈ l.map Prod.fst then some (g k) else none := by
  induction l with
  | nil => simp [lookup?]
  | cons q t ih =>
    obtain ⟨k', v⟩ := q
    have hq : v = g k' := h (k', v) (List.mem_cons_self _ t)
    by_cases hk : k' = k
    · subst hk
      simp [lookup?, hq]
    · have h1 := ih fun p hp => h p (List.mem_cons_of_mem _ hp)
      have h2 : (k = k') ↔ False := ⟨fun he => hk he.symm, False.elim⟩
      simp only [lookup?, if_neg hk, h1, List.map_cons, List.mem_cons, h2, false_or]

/-- A `filterMap` whose function is an if-then-else of `some` is a
`filter` followed by a `map`. -/
theorem filterMap_ite_eq {α β : Type} (p : α → Bool) (g : α → β) (l : List α) :
    (l.filterMap fun a => if p a then some (g a) else none) = (l.filter p).map g := by
  induction l with
  | nil => rfl
  | cons a t ih =>
    by_cases hp : p a <;> simp [List.filterMap_cons, List.filter_cons, hp, ih]

/-- The schema produced by `_generate_single_schema` for a zone,
expressed through the `schemaOk` success predicate. -/
theorem generateSingleSchema_snd (env : GenEnv) (n : String) :
    (generateSingleSchema env n).2 =
      if schemaOk env n then some (schemaFilePath n) else none := by
  unfold generateSingleSchema schemaOk
  by_cases hr : (env.schemaTool n).raisesExc <;>
    by_cases hu : env.urlconfOk n <;>
      by_cases he : (env.schemaTool n).exitOk <;>
        by_cases hf : (env.schemaTool n).fileOnDisk <;>
          simp [hr, hu, he, hf]

/-- `generate_schemas` returns the empty map when there is no zone to
process or `manage.py` is missing. -/
theorem generate_schemas_early (cfg : Config) (env : GenEnv)
    (zones : Option (List String))
    (h : (zonesToProcess cfg.zones zones).isEmpty = true ∨ env.managePyFound = false) :
    generate_schemas cfg env zones = [] := by
  unfold generate_schemas generateSchemasT
  rcases h with h | h
  · simp [h]
  · by_cases h2 : (zonesToProcess cfg.zones zones).isEmpty = true <;> simp [h, h2]

/-- On the non-degenerate path, `generate_schemas` is a key-ordered
rendering of the set of zones whose schema attempt succeeded: its entry
list is a permutation of the processed zone names filtered by `schemaOk`,
each name paired with its schema path. -/
theorem generate_schemas_main (cfg : Config) (env : GenEnv)
    (zones : Option (List String))
    (hperm : ∀ {α : Type} (l : List α), (env.sched l).Perm l)
    (hne : (zonesToProcess cfg.zones zones).isEmpty = false)
    (hmp : env.managePyFound = true) :
    ∃ K : List String,
      K.Perm (((zonesToProcess cfg.zones zones).map Prod.fst).filter (schemaOk env)) ∧
      generate_schemas cfg env zones = K.map fun n => (n, schemaFilePath n) := by
  unfold generate_schemas generateSchemasT
  have hmap : ∀ (l : List String),
      (l.filterMap fun n => (generateSingleSchema env n).2.map fun p => (n, p)) =
        (l.filter (schemaOk env)).map fun n => (n, schemaFilePath n) := by
    intro l
    have : (fun n => ((generateSingleSchema env n).2.map fun p => (n, p))) =
        fun n => if schemaOk env n then some (n, schemaFilePath n) else none := by
      funext n
      rw [generateSingleSchema_snd]
      by_cases h : schemaOk env n <;> simp [h]
    rw [this, filterMap_ite_eq (schemaOk env) (fun n => (n, schemaFilePath n)) l]
  by_cases hpar : (cfg.enable_multithreading && decide ((zonesToProcess cfg.zones zones).length > 1)
      && decide (cfg.max_workers > 1)) = true
  · refine ⟨(env.sched ((zonesToProcess cfg.zones zones).map Prod.fst)).filter (schemaOk env),
      (hperm _).filter _, ?_⟩
    simp [hne, hmp, hpar, hmap]
  · refine ⟨((zonesToProcess cfg.zones zones).map Prod.fst).filter (schemaOk env),
      List.Perm.refl _, ?_⟩
    simp [hne, hmp, hpar, hmap]

/-- With TypeScript generation enabled, a single task of the combined
client stage reduces to one external generator call. -/
theorem tsTask_eq (cfg : Config) (env : GenEnv) (z p : String)
    (h : cfg.ts_enabled = true) : tsTask cfg env z p = env.tsGen z p := by
  simp [tsTask, generate_typescript_clients, generateTypescriptClientsT, h,
    tsGenerateAll, lookup?]

/-- With Python generation enabled, a single task of the combined client
stage reduces to one external generator call. -/
theorem pyTask_eq (cfg : Config) (env : GenEnv) (z p : String)
    (h : cfg.py_enabled = true) : pyTask cfg env z p = env.pyGen z p := by
  simp [pyTask, generate_python_clients, generatePythonClientsT, h,
    pyGenerateAll, lookup?]

/-- The collection loop of the combined client stage splits the completed
work items by tag. -/
theorem collectClientTasks_eq (cfg : Config) (env : GenEnv)
    (l : List (Bool × String × String)) :
    collectClientTasks cfg env l =
      ((l.filter fun t => t.1).map fun t => (t.2.1, tsTask cfg env t.2.1 t.2.2),
        (l.filter fun t => !t.1).map fun t => (t.2.1, pyTask cfg env t.2.1 t.2.2)) := by
  induction l with
  | nil => rfl
  | cons a t ih =>
    obtain ⟨isTs, z, p⟩ := a
    cases isTs <;> simp [collectClientTasks, ih, List.filter_cons]

/-- Count of the elements of a duplicate-free list differing from a
given member. -/
theorem countP_ne_of_nodup (l : List String) (z : String) (hnd : l.Nodup)
    (hz : z ∈ l) : l.countP (fun n => ! decide (n = z)) = l.length - 1 := by
  induction l with
  | nil => cases hz
  | cons a t ih =>
    rw [List.nodup_cons] at hnd
    rcases List.mem_cons.mp hz with hza | hzt
    · subst hza
      have hall : t.countP (fun n => ! decide (n = z)) = t.length := by
        refine List.countP_eq_length.mpr fun b hb => ?_
        simp only [Bool.not_eq_true']
        exact decide_eq_false fun hbz => hnd.1 (hbz ▸ hb)
      simp [List.countP_cons, hall]
    · have hne : (! decide (a = z)) = true := by
        simp only [Bool.not_eq_true']
        exact decide_eq_false fun haz => hnd.1 (haz ▸ hzt)
      have hlen : 1 ≤ t.length := List.length_pos.mpr (List.ne_nil_of_mem hzt)
      have hih := ih hnd.2 hzt
      simp only [List.countP_cons, hih, hne, if_true, List.length_cons]
      omega

/-- Soundness invariant of the `validate_zones` loop: if it accepts, every
remaining entry builds a zone whose apps avoid the accumulated app set and
whose effective path marker avoids the accumulated marker set, and the
remaining entries are pairwise compatible. -/
theorem validateZonesGo_sound :
    ∀ (l : List (String × RawZoneConfig)) (sa sp : List String),
      validateZonesGo l sa sp = .ok () →
      (∀ e ∈ l, ∀ z, buildZone e.1 e.2 = .ok z →
        (∀ a ∈ z.apps, a ∉ sa) ∧ effectivePfx e.1 z ∉ sp) ∧
      l.Pairwise ZonesCompatible
  | [], _, _, _ => ⟨fun e he => absurd he (List.not_mem_nil e), List.Pairwise.nil⟩
  | (n, rc) :: rest, sa, sp, h => by
    rw [validateZonesGo] at h
    rcases hb : buildZone n rc with e | z₀
    · simp only [hb] at h
      cases h
    · simp only [hb] at h
      by_cases happ : (z₀.apps.any fun a => sa.contains a) = true
      · rw [if_pos happ] at h
        cases h
      · rw [if_neg happ] at h
        by_cases hpfx : (sp.contains (effectivePfx n z₀)) = true
        · rw [if_pos hpfx] at h
          cases h
        · rw [if_neg hpfx] at h
          obtain ⟨hmem, hpair⟩ :=
            validateZonesGo_sound rest (sa ++ z₀.apps) (sp ++ [effectivePfx n z₀]) h
          have hz₀sa : ∀ a ∈ z₀.apps, a ∉ sa := by
            intro a ha hasa
            exact happ (List.any_eq_true.mpr ⟨a, ha, List.elem_eq_true_of_mem hasa⟩)
          have hz₀sp : effectivePfx n z₀ ∉ sp := by
            intro hin
            exact hpfx (List.elem_eq_true_of_mem hin)
          refine ⟨?_, ?_⟩
          · intro e he z hz
            rcases List.mem_cons.mp he with he1 | he2
            · subst he1
              rw [hb] at hz
              cases hz
              exact ⟨hz₀sa, hz₀sp⟩
            · obtain ⟨h1, h2⟩ := hmem e he2 z hz
              exact ⟨fun a ha => fun hasa => h1 a ha (List.mem_append_left _ hasa),
                fun hin => h2 (List.mem_append_left _ hin)⟩
          · refine List.pairwise_cons.mpr ⟨?_, hpair⟩
            intro e he z1 z2 hz1 hz2
            rw [hb] at hz1
            cases hz1
            obtain ⟨h1, h2⟩ := hmem e he z2 hz2
            constructor
            · intro a ha haz2
              exact h1 a haz2 (List.mem_append_right _ ha)
            · intro heq
              exact h2 (heq ▸ List.mem_append_right _ (List.mem_singleton.mpr rfl))

/-! Claim theorems. -/

/-- C1: the claim states that `generate_all` on a valid non-empty
registry always returns a `GenerationSummary` and never raises, in
particular when monorepo integration is enabled.  The code violates this:
with monorepo integration enabled the sequential sync path calls
`self.monorepo_sync.sync_all()` (generator.py line 452) and the
multithreaded path accesses `self.monorepo_sync.sync_zone`
(generator.py line 484), but `MonorepoSync` defines neither attribute
(monorepo_sync.py defines `sync_all_clients`), so Python raises
`AttributeError` out of `generate_all` even when every external tool
succeeds.  The third conjunct shows the same run with monorepo
integration disabled does return a summary, isolating the failure to the
sync step. -/
theorem c1_generate_all_raises_on_monorepo_sync :
    generateAll { cfgBase with zones := [("api", zoneA)], monorepo_enabled := true }
        envAllOk none =
      .error "AttributeError: MonorepoSync object has no attribute sync_all" ∧
    generateAll { cfgBase with monorepo_enabled := true, enable_multithreading := true }
        envAllOk none =
      .error "AttributeError: MonorepoSync object has no attribute sync_zone" ∧
    (generateAll { cfgBase with zones := [("api", zoneA)] } envAllOk none).isOk = true := by
  refine ⟨by rfl, by rfl, by rfl⟩

/-- C9: the claim (with the spec and the repository's own tests,
tests/test_config.py line 171) states that a validated zone without an
explicit path marker gets `path_prefix = name`.  The constructed pydantic
model in fact keeps `path_prefix = None`: the defaulting lives in
`__post_init_post_parse__`, a pydantic-v1 hook never invoked by the
pydantic-v2 `BaseModel` (and the model is frozen).  This theorem
evaluates the model constructor at the failing input of the repository's
own test. -/
theorem c9_path_marker_stays_unset :
    buildZone "test" { apps := ["django.contrib.auth"] } =
      .ok { name := "test", apps := ["django.contrib.auth"], title := none
            version := "v1", path_pfx := none } := by
  rfl

/-- C10: when at least one client path is supplied to
`archive_zone_clients` but none of the supplied paths exists on disk, the
call still succeeds: each missing client is merely marked unavailable and
both the timestamped and the `latest` archive are produced. -/
theorem c10_archive_missing_clients_success (fs : String → Bool)
    (tstamp zone : String) (ts py : Option String)
    (hsome : ts.isSome = true ∨ py.isSome = true)
    (hts : ∀ p, ts = some p → fs p = false)
    (hpy : ∀ p, py = some p → fs p = false) :
    (archiveZoneClients fs tstamp zone ts py).success = true ∧
    (archiveZoneClients fs tstamp zone ts py).ts_available = false ∧
    (archiveZoneClients fs tstamp zone ts py).py_available = false ∧
    (archiveZoneClients fs tstamp zone ts py).timestamped_archive =
      some ("archive/files/" ++ tstamp ++ "/" ++ zone ++ ".zip") ∧
    (archiveZoneClients fs tstamp zone ts py).latest_archive =
      some ("archive/latest/" ++ zone ++ ".zip") := by
  cases ts with
  | none =>
    cases py with
    | none =>
      rcases hsome with h | h <;> simp at h
    | some q =>
      simp [archiveZoneClients, hpy q rfl]
  | some p =>
    cases py with
    | none =>
      simp [archiveZoneClients, hts p rfl]
    | some q =>
      simp [archiveZoneClients, hts p rfl, hpy q rfl]

/-- Witness for C10 at a concrete input: a TypeScript path is supplied
but absent from the filesystem and no Python path is given. -/
theorem c10_archive_missing_clients_success_witness :
    (archiveZoneClients (fun _ => false) "20261012_010203" "api"
        (some "clients/typescript/api") none).success = true ∧
    (archiveZoneClients (fun _ => false) "20261012_010203" "api"
        (some "clients/typescript/api") none).ts_available = false ∧
    (archiveZoneClients (fun _ => false) "20261012_010203" "api"
        (some "clients/typescript/api") none).py_available = false ∧
    (archiveZoneClients (fun _ => false) "20261012_010203" "api"
        (some "clients/typescript/api") none).timestamped_archive =
      some ("archive/files/" ++ "20261012_010203" ++ "/" ++ "api" ++ ".zip") ∧
    (archiveZoneClients (fun _ => false) "20261012_010203" "api"
        (some "clients/typescript/api") none).latest_archive =
      some ("archive/latest/" ++ "api" ++ ".zip") :=
  c10_archive_missing_clients_success (fun _ => false) "20261012_010203" "api"
    (some "clients/typescript/api") none (Or.inl rfl)
    (fun _ _ => rfl) (fun p hp => by cases hp)

/-- C8: `generate_all` called against a non-empty registry with a
non-empty zones argument naming only unknown zones returns the all-zero
summary (total zones 0, empty result maps) instead of raising. -/
theorem c8_nonexistent_zones_boundary (cfg : Config) (env : GenEnv)
    (zs : List String)
    (hreg : cfg.zones.isEmpty = false)
    (hzs : zs.isEmpty = false)
    (hmiss : ∀ p ∈ cfg.zones, zs.contains p.1 = false) :
    generateAll cfg env (some zs) = .ok zeroSummary := by
  have hfil : (cfg.zones.filter fun p => zs.contains p.1) = [] :=
    List.filter_eq_nil_iff.mpr fun p hp => by
      rw [hmiss p hp]
      simp
  unfold generateAll
  simp only [hreg, hzs, hfil, Bool.false_eq_true, if_false, List.isEmpty_nil, if_true]

/-- Witness for C8: a two-zone registry queried for `nonexistent`. -/
theorem c8_nonexistent_zones_boundary_witness :
    generateAll cfgBase envAllOk (some ["nonexistent"]) = .ok zeroSummary :=
  c8_nonexistent_zones_boundary cfgBase envAllOk ["nonexistent"] rfl rfl
    (by decide)

/-- The removal list of `clean_old_archives` is the filtered, name-mapped
entry list: directories whose parsed date is older than the cutoff. -/
theorem cleanOldArchives_removed (entries : List ArchiveEntry) (now : Int) (k : Nat) :
    (cleanOldArchives entries now k).removed =
      (entries.filter fun e => e.isDir &&
        ((parseTimestampDate e.name).map (archiveDirTooOld now k)).getD false).map
        (fun e => e.name) := by
  induction entries with
  | nil => rfl
  | cons e rest ih =>
    simp only [cleanOldArchives, List.filter_cons]
    rcases hp : parseTimestampDate e.name with _ | t
    · by_cases hd : e.isDir <;> simp [hd, hp, ih]
    · by_cases hd : e.isDir
      · by_cases ho : archiveDirTooOld now k t <;> simp [hd, hp, ho, ih]
      · simp [hd, hp, ih]

/-- C7: `clean_old_archives` removes exactly the `files/` subdirectories
whose name parses as a timestamp dated before the cutoff `now -
keep_days`, and a subdirectory whose name does not parse is never
removed (the general part of the conjunction); with `keep_days = 30` a
directory dated 31 days ago is removed while one dated 29 days ago and a
non-parsing one survive (the concrete part: 2026-09-11 versus 2026-09-13
against a run at 01:00 on 2026-10-12).  The remaining conjuncts pin the
strptime corner cases of the embedded parser: short digit runs such as
`20251`, `111` and `1111` do not parse (the `%Y` group needs exactly
four digits and a day group must follow), while `2026131`, `2025930` and
`2025120` do parse (one-digit month with regex backtracking out of the
two-digit month when the day group cannot match). -/
theorem c7_retention_boundary :
    (∀ (entries : List ArchiveEntry) (now : Int) (k : Nat) (nm : String),
      nm ∈ (cleanOldArchives entries now k).removed ↔
        ∃ e, e ∈ entries ∧ e.name = nm ∧ e.isDir = true ∧
          ∃ t, parseTimestampDate nm = some t ∧ archiveDirTooOld now k t = true) ∧
    cleanOldArchives
        [⟨"20260911_000000", true⟩, ⟨"20260913_120000", true⟩, ⟨"not-a-timestamp", true⟩]
        (86400 * daysFromCivil 2026 10 12 + 3600) 30 =
      ⟨["20260911_000000"], 1, 1⟩ ∧
    parseTimestampDate "20251" = none ∧
    parseTimestampDate "111" = none ∧
    parseTimestampDate "1111" = none ∧
    parseTimestampDate "2026131" = some (daysFromCivil 2026 1 31) ∧
    parseTimestampDate "2025930" = some (daysFromCivil 2025 9 30) ∧
    parseTimestampDate "2025120" = some (daysFromCivil 2025 1 20) := by
  constructor
  · intro entries now k nm
    rw [cleanOldArchives_removed]
    simp only [List.mem_map, List.mem_filter]
    constructor
    · rintro ⟨e, ⟨he, hp⟩, hnm⟩
      simp only [Bool.and_eq_true] at hp
      obtain ⟨hd, hopt⟩ := hp
      rcases hparse : parseTimestampDate e.name with _ | t
      · rw [hparse] at hopt
        cases hopt
      · rw [hparse] at hopt
        exact ⟨e, he, hnm, hd, t, hnm ▸ hparse, by simpa using hopt⟩
    · rintro ⟨e, he, hnm, hd, t, hpt, hold⟩
      refine ⟨e, ⟨he, ?_⟩, hnm⟩
      rw [hd, hnm, hpt]
      simpa using hold
  · decide

/-- C3 counterexample: the claim demands that a zero exit code with an
empty output file must not put the zone in the schema map, but
`_generate_single_schema` checks only `success and schema_file.exists()`
(generator.py line 156): with the tool exiting 0 and leaving an existing
but EMPTY file, the zone is in the returned map. -/
theorem c3_empty_schema_file_counterexample :
    generate_schemas { cfgBase with zones := [("api", zoneA)] } envEmptyFile none =
      [("api", "schemas/api.yaml")] ∧
    (envEmptyFile.schemaTool "api").exitOk = true ∧
    (envEmptyFile.schemaTool "api").fileOnDisk = true ∧
    (envEmptyFile.schemaTool "api").fileNonEmpty = false := by
  exact ⟨rfl, rfl, rfl, rfl⟩

/-- C3 amended: for a zone processed by `generate_schemas` (registry hit,
`manage.py` found, URLconf synthesized, no exception), the zone's name is
a key of the returned schema map if and only if the external tool exits 0
AND the output file exists on disk afterwards — file content (emptiness)
is not checked. -/
theorem c3_schema_map_membership (cfg : Config) (env : GenEnv)
    (zones : Option (List String)) (n : String)
    (hperm : ∀ {α : Type} (l : List α), (env.sched l).Perm l)
    (hmp : env.managePyFound = true)
    (hn : n ∈ (zonesToProcess cfg.zones zones).map Prod.fst)
    (hurl : env.urlconfOk n = true)
    (hexc : (env.schemaTool n).raisesExc = false) :
    (n ∈ (generate_schemas cfg env zones).map Prod.fst) ↔
      ((env.schemaTool n).exitOk = true ∧ (env.schemaTool n).fileOnDisk = true) := by
  have hne : (zonesToProcess cfg.zones zones).isEmpty = false := by
    cases hzz : zonesToProcess cfg.zones zones with
    | nil => rw [hzz] at hn; cases hn
    | cons a t => rfl
  obtain ⟨K, hK, hEq⟩ := generate_schemas_main cfg env zones hperm hne hmp
  rw [hEq]
  have hkeys : (K.map fun n => (n, schemaFilePath n)).map Prod.fst = K := by
    rw [List.map_map]
    exact List.map_id' K
  rw [hkeys]
  rw [hK.mem_iff]
  rw [List.mem_filter]
  constructor
  · rintro ⟨-, hok⟩
    unfold schemaOk at hok
    simp only [Bool.and_eq_true] at hok
    exact hok.2
  · rintro ⟨he, hf⟩
    refine ⟨hn, ?_⟩
    unfold schemaOk
    rw [hexc, hurl, he, hf]
    rfl

/-- Witness for C3 amended at a concrete input: zone `api` of a two-zone
registry under the all-success environment. -/
theorem c3_schema_map_membership_witness :
    ("api" ∈ (generate_schemas cfgBase envAllOk none).map Prod.fst) ↔
      ((envAllOk.schemaTool "api").exitOk = true ∧
        (envAllOk.schemaTool "api").fileOnDisk = true) :=
  c3_schema_map_membership cfgBase envAllOk none "api"
    (by intro α l; exact List.Perm.refl l) rfl (by decide) rfl rfl

/-- C4 counterexample: for the monorepo-sync stage the claim fails.  With
multithreading on, `max_workers = 4` and two TypeScript results of which
exactly one succeeded, the stage takes its parallel path
(`usedParallel = true`) although only one work item (the one successful
zone) is submitted — the spec formula over the submitted work items says
sequential (`specUseParallel true 1 4 = false`) — and the pool it creates
has `min(4, 1) = 1` worker, not `min(max_workers, work_item_count) =
min(4, 2) = 2` of the all-results reading. -/
theorem c4_sync_pool_counterexample :
    syncStageTrace { cfgBase with enable_multithreading := true }
        [("api", ⟨true, "api", "out", 3, ""⟩), ("pub", ⟨false, "pub", "", 0, "boom"⟩)] =
      ⟨true, some 1⟩ ∧
    ([("api", (⟨true, "api", "out", 3, ""⟩ : GenerationResult)),
        ("pub", ⟨false, "pub", "", 0, "boom"⟩)].filter fun p => p.2.success).length = 1 ∧
    specUseParallel true 1 4 = false ∧
    specWorkerCount 4 2 = 2 := by
  exact ⟨rfl, rfl, rfl, rfl⟩

/-- C4 amended: the three generation stages (schema, TypeScript client,
Python client), when not short-circuited by an empty work set, a missing
`manage.py` or a disabled generator, take the parallel path exactly per
the spec decision function over their work items and create a pool of
`min(max_workers, work_item_count)` workers.  The monorepo-sync stage
instead decides on the TOTAL TypeScript result count while sizing its
pool by the SUCCESSFUL-zone count; the two agree with the spec formula
only when every TypeScript result succeeded. -/
theorem c4_parallel_decision (cfg : Config) (env : GenEnv)
    (zones : Option (List String)) (schemas : List (String × String))
    (tsResults : List (String × GenerationResult)) :
    ((zonesToProcess cfg.zones zones).isEmpty = false → env.managePyFound = true →
      (generateSchemasT cfg env zones).2.usedParallel =
        specUseParallel cfg.enable_multithreading
          (zonesToProcess cfg.zones zones).length cfg.max_workers ∧
      ((generateSchemasT cfg env zones).2.usedParallel = true →
        (generateSchemasT cfg env zones).2.poolSize =
          some (specWorkerCount cfg.max_workers (zonesToProcess cfg.zones zones).length))) ∧
    (cfg.ts_enabled = true →
      (generateTypescriptClientsT cfg env schemas).2.usedParallel =
        specUseParallel cfg.enable_multithreading schemas.length cfg.max_workers ∧
      ((generateTypescriptClientsT cfg env schemas).2.usedParallel = true →
        (generateTypescriptClientsT cfg env schemas).2.poolSize =
          some (specWorkerCount cfg.max_workers schemas.length))) ∧
    (cfg.py_enabled = true →
      (generatePythonClientsT cfg env schemas).2.usedParallel =
        specUseParallel cfg.enable_multithreading schemas.length cfg.max_workers ∧
      ((generatePythonClientsT cfg env schemas).2.usedParallel = true →
        (generatePythonClientsT cfg env schemas).2.poolSize =
          some (specWorkerCount cfg.max_workers schemas.length))) ∧
    ((syncStageTrace cfg tsResults).usedParallel =
      specUseParallel cfg.enable_multithreading tsResults.length cfg.max_workers) ∧
    ((syncStageTrace cfg tsResults).usedParallel = true →
      (tsResults.filter fun p => p.2.success).isEmpty = false →
      (syncStageTrace cfg tsResults).poolSize =
        some (specWorkerCount cfg.max_workers
          (tsResults.filter fun p => p.2.success).length)) := by
  refine ⟨?_, ?_, ?_, ?_, ?_⟩
  · intro hne hmp
    by_cases hpar : (cfg.enable_multithreading
        && decide ((zonesToProcess cfg.zones zones).length > 1)
        && decide (cfg.max_workers > 1)) = true
    · exact ⟨by simp [generateSchemasT, hne, hmp, hpar, specUseParallel],
        fun _ => by simp [generateSchemasT, hne, hmp, hpar, specWorkerCount, Nat.min_comm]⟩
    · refine ⟨by simp [generateSchemasT, hne, hmp, hpar, specUseParallel], fun hu => ?_⟩
      rw [show (generateSchemasT cfg env zones).2.usedParallel = false by
        simp [generateSchemasT, hne, hmp, hpar]] at hu
      cases hu
  · intro hts
    by_cases hpar : (cfg.enable_multithreading && decide (schemas.length > 1)
        && decide (cfg.max_workers > 1)) = true
    · exact ⟨by simp [generateTypescriptClientsT, hts, hpar, specUseParallel],
        fun _ => by simp [generateTypescriptClientsT, hts, hpar, specWorkerCount,
          Nat.min_comm]⟩
    · refine ⟨by simp [generateTypescriptClientsT, hts, hpar, specUseParallel],
        fun hu => ?_⟩
      rw [show (generateTypescriptClientsT cfg env schemas).2.usedParallel = false by
        simp [generateTypescriptClientsT, hts, hpar]] at hu
      cases hu
  · intro hpy
    by_cases hpar : (cfg.enable_multithreading && decide (schemas.length > 1)
        && decide (cfg.max_workers > 1)) = true
    · exact ⟨by simp [generatePythonClientsT, hpy, hpar, specUseParallel],
        fun _ => by simp [generatePythonClientsT, hpy, hpar, specWorkerCount,
          Nat.min_comm]⟩
    · refine ⟨by simp [generatePythonClientsT, hpy, hpar, specUseParallel],
        fun hu => ?_⟩
      rw [show (generatePythonClientsT cfg env schemas).2.usedParallel = false by
        simp [generatePythonClientsT, hpy, hpar]] at hu
      cases hu
  · by_cases hpar : (cfg.enable_multithreading && decide (tsResults.length > 1)
        && decide (cfg.max_workers > 1)) = true
    · by_cases hsz : ((tsResults.filter fun p => p.2.success).isEmpty) = true <;>
        simp [syncStageTrace, hpar, hsz, specUseParallel]
    · simp [syncStageTrace, hpar, specUseParallel]
  · intro hu hsz
    by_cases hpar : (cfg.enable_multithreading && decide (tsResults.length > 1)
        && decide (cfg.max_workers > 1)) = true
    · simp [syncStageTrace, hpar, hsz, specWorkerCount, Nat.min_comm]
    · rw [show (syncStageTrace cfg tsResults).usedParallel = false by
        simp [syncStageTrace, hpar]] at hu
      cases hu

/-- Witness for C4 amended: schema stage of the two-zone registry,
sequential configuration. -/
theorem c4_parallel_decision_witness :
    (generateSchemasT cfgBase envAllOk none).2.usedParallel =
      specUseParallel cfgBase.enable_multithreading
        (zonesToProcess cfgBase.zones none).length cfgBase.max_workers :=
  ((c4_parallel_decision cfgBase envAllOk none [] []).1 rfl rfl).1

/-- C2: a zones mapping accepted by settings construction is returned
whole (no partial registry) and is pairwise compatible — any two distinct
zones have disjoint app lists and distinct effective path markers (the
marker being `path_prefix or name`, following the spec's default);
conversely a mapping containing two constructible zones that share an app
or share an effective path marker is rejected with a validation error. -/
theorem c2_registry_partition (v : List (String × RawZoneConfig)) :
    (∀ w, validate_zones v = .ok w → w = v ∧ v.Pairwise ZonesCompatible) ∧
    (¬ v.Pairwise ZonesCompatible → ∃ e, validate_zones v = .error e) := by
  have hsound : ∀ w, validate_zones v = .ok w → w = v ∧ v.Pairwise ZonesCompatible := by
    intro w hw
    unfold validate_zones at hw
    rcases hgo : validateZonesGo v [] [] with e | u
    · simp only [hgo] at hw
      exact Except.noConfusion hw
    · simp only [hgo, Except.ok.injEq] at hw
      exact ⟨hw.symm, (validateZonesGo_sound v [] [] (by rw [hgo])).2⟩
  refine ⟨hsound, ?_⟩
  intro hnp
  rcases hv : validate_zones v with e | w
  · exact ⟨e, rfl⟩
  · exact absurd (hsound w hv).2 hnp

/-- Witness for C2: a mapping of two app-disjoint, marker-distinct zones
is accepted and pairwise compatible, while a mapping whose two zones
share the app `app_x` is rejected. -/
theorem c2_registry_partition_witness :
    ([("api", ({ apps := ["app_a"] } : RawZoneConfig)),
      ("pub", { apps := ["app_b"] })].Pairwise ZonesCompatible) ∧
    (∃ e, validate_zones [("api", { apps := ["app_x"] }),
      ("pub", { apps := ["app_x"] })] = .error e) := by
  constructor
  · exact ((c2_registry_partition
        [("api", { apps := ["app_a"] }), ("pub", { apps := ["app_b"] })]).1
      [("api", { apps := ["app_a"] }), ("pub", { apps := ["app_b"] })] rfl).2
  · refine (c2_registry_partition _).2 ?_
    intro h
    obtain ⟨hrel, -⟩ := List.pairwise_cons.mp h
    have h2 := hrel ("pub", { apps := ["app_x"] }) (List.mem_cons_self _ _)
    have h3 := h2 ⟨"api", ["app_x"], none, "v1", none⟩
      ⟨"pub", ["app_x"], none, "v1", none⟩ rfl rfl
    exact h3.1 "app_x" (List.mem_singleton.mpr rfl) (List.mem_singleton.mpr rfl)

/-- Count of a predicate is invariant under pointwise agreement on the
list members. -/
theorem countP_congr_mem {α : Type} (l : List α) (p q : α → Bool)
    (h : ∀ a ∈ l, p a = q a) : l.countP p = l.countP q := by
  induction l with
  | nil => rfl
  | cons a t ih =>
    simp [List.countP_cons, h a (List.mem_cons_self a t),
      ih fun b hb => h b (List.mem_cons_of_mem a hb)]

/-- C6: if among N ≥ 2 registry zones the schema attempt fails for
exactly one zone and succeeds for every other, `generate_schemas` returns
(without raising — the embedding is a total function) a map with exactly
N − 1 entries whose keys are precisely the succeeding zones. -/
theorem c6_single_failure_isolation (cfg : Config) (env : GenEnv) (z0 : String)
    (hperm : ∀ {α : Type} (l : List α), (env.sched l).Perm l)
    (hmp : env.managePyFound = true)
    (hnd : (cfg.zones.map Prod.fst).Nodup)
    (hN : 2 ≤ cfg.zones.length)
    (hz0 : z0 ∈ cfg.zones.map Prod.fst)
    (hfail : schemaOk env z0 = false)
    (hsucc : ∀ n ∈ cfg.zones.map Prod.fst, n ≠ z0 → schemaOk env n = true) :
    (generate_schemas cfg env none).length = cfg.zones.length - 1 ∧
    ∀ n, n ∈ (generate_schemas cfg env none).map Prod.fst ↔
      (n ∈ cfg.zones.map Prod.fst ∧ n ≠ z0) := by
  have hzp : zonesToProcess cfg.zones none = cfg.zones := rfl
  have hne : (zonesToProcess cfg.zones none).isEmpty = false := by
    rw [hzp]
    cases hc : cfg.zones with
    | nil => rw [hc] at hN; cases hN
    | cons a t => rfl
  obtain ⟨K, hK, hEq⟩ := generate_schemas_main cfg env none hperm hne hmp
  rw [hzp] at hK
  have hpoint : ∀ n ∈ cfg.zones.map Prod.fst,
      schemaOk env n = (! decide (n = z0)) := by
    intro n hn
    by_cases h : n = z0
    · subst h
      simp [hfail]
    · simp [h, hsucc n hn h]
  constructor
  · rw [hEq, List.length_map, hK.length_eq, ← List.countP_eq_length_filter,
      countP_congr_mem _ _ _ hpoint, countP_ne_of_nodup _ z0 hnd hz0,
      List.length_map]
  · intro n
    rw [hEq]
    have hkeys : (K.map fun m => (m, schemaFilePath m)).map Prod.fst = K := by
      rw [List.map_map]
      exact List.map_id' K
    rw [hkeys, hK.mem_iff, List.mem_filter]
    constructor
    · rintro ⟨hn, hok⟩
      refine ⟨hn, ?_⟩
      intro hzz
      rw [hzz, hfail] at hok
      cases hok
    · rintro ⟨hn, hnz⟩
      exact ⟨hn, hsucc n hn hnz⟩

/-- Witness for C6: a two-zone registry in which only `api` fails has a
one-entry schema map. -/
theorem c6_single_failure_isolation_witness :
    (generate_schemas cfgBase envApiFails none).length = cfgBase.zones.length - 1 :=
  (c6_single_failure_isolation cfgBase envApiFails "api"
    (by intro α l; exact List.Perm.refl l) rfl (by decide) (by decide) (by decide)
    (by decide) (by decide)).1

/-- The per-zone schema `filterMap` is the `schemaOk`-filter followed by
pairing each zone with its schema path. -/
theorem filterMap_schema_eq (env : GenEnv) (l : List String) :
    (l.filterMap fun n => (generateSingleSchema env n).2.map fun q => (n, q)) =
      (l.filter (schemaOk env)).map fun n => (n, schemaFilePath n) := by
  have hfun : (fun n => ((generateSingleSchema env n).2.map fun q => (n, q))) =
      fun n => if schemaOk env n then some (n, schemaFilePath n) else none := by
    funext n
    rw [generateSingleSchema_snd]
    by_cases h : schemaOk env n <;> simp [h]
  rw [hfun, filterMap_ite_eq]

/-- Every entry of a schema map pairs a zone with its schema path. -/
theorem generate_schemas_keyed (cfg : Config) (env : GenEnv)
    (zs : Option (List String)) :
    ∀ p ∈ generate_schemas cfg env zs, p.2 = schemaFilePath p.1 := by
  intro p hp
  unfold generate_schemas generateSchemasT at hp
  by_cases h1 : (zonesToProcess cfg.zones zs).isEmpty = true
  · simp [h1] at hp
  · by_cases h2 : env.managePyFound = false
    · simp [h1, h2] at hp
    · by_cases h3 : (cfg.enable_multithreading
          && decide ((zonesToProcess cfg.zones zs).length > 1)
          && decide (cfg.max_workers > 1)) = true
      · simp only [h1, h2, h3, if_false, if_true, filterMap_schema_eq] at hp
        obtain ⟨n, -, hpn⟩ := List.mem_map.mp hp
        rw [← hpn]
      · simp only [h1, h2, h3, if_false, if_true, filterMap_schema_eq] at hp
        obtain ⟨n, -, hpn⟩ := List.mem_map.mp hp
        rw [← hpn]

/-- Toggling only the multithreading flag permutes the schema map. -/
theorem generate_schemas_mt_perm (cfg : Config) (env : GenEnv)
    (zs : Option (List String))
    (hperm : ∀ {α : Type} (l : List α), (env.sched l).Perm l) :
    (generate_schemas { cfg with enable_multithreading := true } env zs).Perm
      (generate_schemas { cfg with enable_multithreading := false } env zs) := by
  by_cases h1 : (zonesToProcess cfg.zones zs).isEmpty = true
  · rw [generate_schemas_early { cfg with enable_multithreading := true } env zs (Or.inl h1),
      generate_schemas_early { cfg with enable_multithreading := false } env zs (Or.inl h1)]
  · by_cases h2 : env.managePyFound = false
    · rw [generate_schemas_early { cfg with enable_multithreading := true } env zs (Or.inr h2),
        generate_schemas_early { cfg with enable_multithreading := false } env zs (Or.inr h2)]
    · have h1' : (zonesToProcess cfg.zones zs).isEmpty = false := by
        revert h1
        cases (zonesToProcess cfg.zones zs).isEmpty <;> simp
      have h2' : env.managePyFound = true := by
        revert h2
        cases env.managePyFound <;> simp
      obtain ⟨KT, hKT, hEqT⟩ := generate_schemas_main
        { cfg with enable_multithreading := true } env zs hperm h1' h2'
      obtain ⟨KF, hKF, hEqF⟩ := generate_schemas_main
        { cfg with enable_multithreading := false } env zs hperm h1' h2'
      rw [hEqT, hEqF]
      exact (hKT.trans hKF.symm).map _

/-- Lookup agrees across a permutation of key-determined assoc lists. -/
theorem lookup_eq_of_perm_keyed {β : Type} (g : String → β)
    (l1 l2 : List (String × β)) (hp : l1.Perm l2)
    (h1 : ∀ p ∈ l1, p.2 = g p.1) (k : String) :
    lookup? l1 k = lookup? l2 k := by
  have h2 : ∀ p ∈ l2, p.2 = g p.1 := fun p hpm => h1 p (hp.symm.subset hpm)
  rw [lookup_eq_keyed g l1 h1 k, lookup_eq_keyed g l2 h2 k]
  have hm := (hp.map Prod.fst).mem_iff (a := k)
  by_cases hk : k ∈ l1.map Prod.fst
  · rw [if_pos hk, if_pos (hm.mp hk)]
  · rw [if_neg hk, if_neg fun c => hk (hm.mpr c)]

/-- Reflexivity of summary equivalence. -/
theorem summaryEquiv_refl (s : GenerationSummary) : summaryEquiv s s :=
  ⟨rfl, rfl, rfl, rfl, rfl, rfl, rfl, fun _ => rfl, fun _ => rfl⟩

/-- Two summaries assembled from permuted, key-determined result maps are
equivalent. -/
theorem mkSummary_equiv (n : Nat) (ts1 ts2 py1 py2 : List (String × GenerationResult))
    (hts : ts1.Perm ts2) (hpy : py1.Perm py2)
    (gts gpy : String → GenerationResult)
    (h1 : ∀ p ∈ ts1, p.2 = gts p.1) (h2 : ∀ p ∈ py1, p.2 = gpy p.1) :
    summaryEquiv (mkSummary n ts1 py1) (mkSummary n ts2 py2) := by
  have hcts : countSuccess ts1 = countSuccess ts2 := (hts.filter _).length_eq
  have hcpy : countSuccess py1 = countSuccess py2 := (hpy.filter _).length_eq
  have hfts : sumFiles ts1 = sumFiles ts2 := ((hts.filter _).map _).sum_eq
  have hfpy : sumFiles py1 = sumFiles py2 := ((hpy.filter _).map _).sum_eq
  refine ⟨rfl, hcts, hcpy, ?_, ?_, ?_, rfl, ?_, ?_⟩
  · show ts1.length - countSuccess ts1 = ts2.length - countSuccess ts2
    rw [hts.length_eq, hcts]
  · show py1.length - countSuccess py1 = py2.length - countSuccess py2
    rw [hpy.length_eq, hcpy]
  · show sumFiles ts1 + sumFiles py1 = sumFiles ts2 + sumFiles py2
    rw [hfts, hfpy]
  · exact lookup_eq_of_perm_keyed gts ts1 ts2 hts h1
  · exact lookup_eq_of_perm_keyed gpy py1 py2 hpy h2

/-- Sequential combined client stage: with multithreading off and both
generators enabled, the stage is the pair of per-generator loops. -/
theorem clientStage_seq (cfg : Config) (env : GenEnv) (S : List (String × String))
    (hmt : cfg.enable_multithreading = false)
    (hts : cfg.ts_enabled = true) (hpy : cfg.py_enabled = true) :
    clientStageResults cfg env S = (tsGenerateAll env S, pyGenerateAll env S) := by
  unfold clientStageResults generate_typescript_clients generateTypescriptClientsT
    generate_python_clients generatePythonClientsT
  simp [hmt, hts, hpy]

/-- Parallel combined client stage: with multithreading on and both
generators enabled, each component is a permutation of the per-generator
loop over the schema map. -/
theorem clientStage_par_perm (cfg : Config) (env : GenEnv)
    (S : List (String × String))
    (hperm : ∀ {α : Type} (l : List α), (env.sched l).Perm l)
    (hts : cfg.ts_enabled = true) (hpy : cfg.py_enabled = true) :
    (clientStageResults cfg env S).1.Perm (S.map fun p => (p.1, env.tsGen p.1 p.2)) ∧
    (clientStageResults cfg env S).2.Perm (S.map fun p => (p.1, env.pyGen p.1 p.2)) := by
  by_cases hcond : (cfg.enable_multithreading && decide (S.length > 1)
      && decide (cfg.max_workers > 1)) = true
  · unfold clientStageResults
    rw [if_pos hcond, collectClientTasks_eq]
    constructor
    · have hfil := (hperm ((S.map fun p => ((true : Bool), p.1, p.2))
        ++ (S.map fun p => ((false : Bool), p.1, p.2)))).filter fun t => t.1
      have hitemsf : (((S.map fun p => ((true : Bool), p.1, p.2))
          ++ (S.map fun p => ((false : Bool), p.1, p.2))).filter fun t => t.1) =
          S.map fun p => ((true : Bool), p.1, p.2) := by
        rw [List.filter_append]
        have e1 : ((S.map fun p => ((true : Bool), p.1, p.2)).filter fun t => t.1) =
            S.map fun p => ((true : Bool), p.1, p.2) :=
          List.filter_eq_self.mpr (by
            intro a ha
            obtain ⟨p, -, hpa⟩ := List.mem_map.mp ha
            rw [← hpa])
        have e2 : ((S.map fun p => ((false : Bool), p.1, p.2)).filter fun t => t.1) = [] :=
          List.filter_eq_nil_iff.mpr (by
            intro a ha
            obtain ⟨p, -, hpa⟩ := List.mem_map.mp ha
            rw [← hpa]
            simp)
        rw [e1, e2, List.append_nil]
      have hthis := hfil.map fun t => (t.2.1, tsTask cfg env t.2.1 t.2.2)
      rw [hitemsf, List.map_map] at hthis
      have hfun : ((fun t : Bool × String × String => (t.2.1, tsTask cfg env t.2.1 t.2.2))
          ∘ fun p : String × String => ((true : Bool), p.1, p.2)) =
          fun p : String × String => (p.1, env.tsGen p.1 p.2) :=
        funext fun p => by
          simp only [Function.comp]
          rw [tsTask_eq cfg env p.1 p.2 hts]
      rw [hfun] at hthis
      exact hthis
    · have hfil := (hperm ((S.map fun p => ((true : Bool), p.1, p.2))
        ++ (S.map fun p => ((false : Bool), p.1, p.2)))).filter fun t => !t.1
      have hitemsf : (((S.map fun p => ((true : Bool), p.1, p.2))
          ++ (S.map fun p => ((false : Bool), p.1, p.2))).filter fun t => !t.1) =
          S.map fun p => ((false : Bool), p.1, p.2) := by
        rw [List.filter_append]
        have e1 : ((S.map fun p => ((true : Bool), p.1, p.2)).filter fun t => !t.1) = [] :=
          List.filter_eq_nil_iff.mpr (by
            intro a ha
            obtain ⟨p, -, hpa⟩ := List.mem_map.mp ha
            rw [← hpa]
            simp)
        have e2 : ((S.map fun p => ((false : Bool), p.1, p.2)).filter fun t => !t.1) =
            S.map fun p => ((false : Bool), p.1, p.2) :=
          List.filter_eq_self.mpr (by
            intro a ha
            obtain ⟨p, -, hpa⟩ := List.mem_map.mp ha
            rw [← hpa]
            simp)
        rw [e1, e2, List.nil_append]
      have hthis := hfil.map fun t => (t.2.1, pyTask cfg env t.2.1 t.2.2)
      rw [hitemsf, List.map_map] at hthis
      have hfun : ((fun t : Bool × String × String => (t.2.1, pyTask cfg env t.2.1 t.2.2))
          ∘ fun p : String × String => ((false : Bool), p.1, p.2)) =
          fun p : String × String => (p.1, env.pyGen p.1 p.2) :=
        funext fun p => by
          simp only [Function.comp]
          rw [pyTask_eq cfg env p.1 p.2 hpy]
      rw [hfun] at hthis
      exact hthis
  · unfold clientStageResults
    rw [if_neg hcond]
    constructor
    · have he : generate_typescript_clients cfg env S = tsGenerateAll env S := by
        unfold generate_typescript_clients generateTypescriptClientsT
        simp [hts, hcond]
      rw [he]
      exact List.Perm.refl _
    · have he : generate_python_clients cfg env S = pyGenerateAll env S := by
        unfold generate_python_clients generatePythonClientsT
        simp [hpy, hcond]
      rw [he]
      exact List.Perm.refl _

/-- With monorepo integration off, `generateAllMain` returns the summary
of the two client stages. -/
theorem generateAllMain_monorepo_off (c : Config) (env : GenEnv)
    (ztp : List (String × ZoneModel)) (hmono : c.monorepo_enabled = false) :
    generateAllMain c env ztp =
      .ok (mkSummary ztp.length
        (clientStageResults c env (generate_schemas c env (some (ztp.map Prod.fst)))).1
        (clientStageResults c env (generate_schemas c env (some (ztp.map Prod.fst)))).2) := by
  unfold generateAllMain
  simp [hmono]

/-- Core of the sequential/parallel equivalence: with both generators
enabled and monorepo integration off, the sequential and the
multithreaded run of `generate_all`'s main body produce equivalent
summaries. -/
theorem generateAllMain_equiv (cfg : Config) (env : GenEnv)
    (ztp : List (String × ZoneModel))
    (hperm : ∀ {α : Type} (l : List α), (env.sched l).Perm l)
    (hts : cfg.ts_enabled = true) (hpy : cfg.py_enabled = true)
    (hmono : cfg.monorepo_enabled = false) :
    ∃ s0 s1,
      generateAllMain { cfg with enable_multithreading := false } env ztp = .ok s0 ∧
      generateAllMain { cfg with enable_multithreading := true } env ztp = .ok s1 ∧
      summaryEquiv s0 s1 := by
  have hF := generateAllMain_monorepo_off
    { cfg with enable_multithreading := false } env ztp hmono
  have hT := generateAllMain_monorepo_off
    { cfg with enable_multithreading := true } env ztp hmono
  have hS : (generate_schemas { cfg with enable_multithreading := true } env
      (some (ztp.map Prod.fst))).Perm
      (generate_schemas { cfg with enable_multithreading := false } env
        (some (ztp.map Prod.fst))) :=
    generate_schemas_mt_perm cfg env _ hperm
  have hseq := clientStage_seq { cfg with enable_multithreading := false } env
    (generate_schemas { cfg with enable_multithreading := false } env
      (some (ztp.map Prod.fst))) rfl hts hpy
  have hpar := clientStage_par_perm { cfg with enable_multithreading := true } env
    (generate_schemas { cfg with enable_multithreading := true } env
      (some (ztp.map Prod.fst))) hperm hts hpy
  have hkeyF := generate_schemas_keyed { cfg with enable_multithreading := false }
    env (some (ztp.map Prod.fst))
  have htsF : (clientStageResults { cfg with enable_multithreading := false } env
      (generate_schemas { cfg with enable_multithreading := false } env
        (some (ztp.map Prod.fst)))).1 =
      (generate_schemas { cfg with enable_multithreading := false } env
        (some (ztp.map Prod.fst))).map fun p => (p.1, env.tsGen p.1 p.2) := by
    rw [hseq]
    rfl
  have hpyF : (clientStageResults { cfg with enable_multithreading := false } env
      (generate_schemas { cfg with enable_multithreading := false } env
        (some (ztp.map Prod.fst)))).2 =
      (generate_schemas { cfg with enable_multithreading := false } env
        (some (ztp.map Prod.fst))).map fun p => (p.1, env.pyGen p.1 p.2) := by
    rw [hseq]
    rfl
  have hp1 : (clientStageResults { cfg with enable_multithreading := true } env
      (generate_schemas { cfg with enable_multithreading := true } env
        (some (ztp.map Prod.fst)))).1.Perm
      ((generate_schemas { cfg with enable_multithreading := false } env
        (some (ztp.map Prod.fst))).map fun p => (p.1, env.tsGen p.1 p.2)) :=
    (hpar.1).trans (hS.map _)
  have hp2 : (clientStageResults { cfg with enable_multithreading := true } env
      (generate_schemas { cfg with enable_multithreading := true } env
        (some (ztp.map Prod.fst)))).2.Perm
      ((generate_schemas { cfg with enable_multithreading := false } env
        (some (ztp.map Prod.fst))).map fun p => (p.1, env.pyGen p.1 p.2)) :=
    (hpar.2).trans (hS.map _)
  refine ⟨_, _, hF, hT, ?_⟩
  refine mkSummary_equiv ztp.length _ _ _ _ ?_ ?_
    (fun n => env.tsGen n (schemaFilePath n))
    (fun n => env.pyGen n (schemaFilePath n)) ?_ ?_
  · rw [htsF]
    exact hp1.symm
  · rw [hpyF]
    exact hp2.symm
  · intro p hp
    rw [htsF] at hp
    obtain ⟨q, hq, hqp⟩ := List.mem_map.mp hp
    rw [← hqp]
    show env.tsGen q.1 q.2 = env.tsGen q.1 (schemaFilePath q.1)
    rw [hkeyF q hq]
  · intro p hp
    rw [hpyF] at hp
    obtain ⟨q, hq, hqp⟩ := List.mem_map.mp hp
    rw [← hqp]
    show env.pyGen q.1 q.2 = env.pyGen q.1 (schemaFilePath q.1)
    rw [hkeyF q hq]

/-- C5 counterexample: with TypeScript generation disabled (a
configuration the claim quantifies over), the sequential run reports
zero failed TypeScript results and an empty TypeScript map, while the
multithreaded run of the same input records one failed "No result
returned" entry per zone — the parallel combined stage submits
TypeScript tasks regardless of the enabled flag and converts the empty
per-zone map into a failed default (generator.py lines 593-631).  The
two summaries differ beyond key reordering, refuting the claim. -/
theorem c5_disabled_generator_counterexample :
    (generateAll { cfgBase with ts_enabled := false } envAllOk none).map
        (fun s => s.failed_typescript) = .ok 0 ∧
    (generateAll { cfgBase with ts_enabled := false, enable_multithreading := true }
        envAllOk none).map (fun s => s.failed_typescript) = .ok 2 ∧
    (generateAll { cfgBase with ts_enabled := false } envAllOk none).map
        (fun s => lookup? s.typescript_results "api") = .ok none ∧
    (generateAll { cfgBase with ts_enabled := false, enable_multithreading := true }
        envAllOk none).map (fun s => lookup? s.typescript_results "api") =
      .ok (some (noResultFailure "api")) := by
  exact ⟨rfl, rfl, rfl, rfl⟩

/-- C5 amended: under deterministic external tools, running
`generate_all` with multithreading disabled versus enabled yields
equivalent `GenerationSummary` values (equal scalar fields, result maps
equal up to key reordering) provided both client generators are enabled
and monorepo integration is disabled; the counterexample shows the
proviso about disabled generators is necessary, and with monorepo
integration enabled both runs are cut short by the `AttributeError` of
C1 (sequential always, multithreaded whenever a TypeScript result
succeeded). -/
theorem c5_sequential_parallel_equivalence (cfg : Config) (env : GenEnv)
    (zones : Option (List String))
    (hperm : ∀ {α : Type} (l : List α), (env.sched l).Perm l)
    (hts : cfg.ts_enabled = true) (hpy : cfg.py_enabled = true)
    (hmono : cfg.monorepo_enabled = false) :
    ∃ s0 s1,
      generateAll { cfg with enable_multithreading := false } env zones = .ok s0 ∧
      generateAll { cfg with enable_multithreading := true } env zones = .ok s1 ∧
      summaryEquiv s0 s1 := by
  by_cases hz : cfg.zones.isEmpty = true
  · refine ⟨zeroSummary, zeroSummary, ?_, ?_, summaryEquiv_refl _⟩ <;>
      · unfold generateAll
        simp [hz]
  · rcases zones with _ | zs
    · obtain ⟨s0, s1, h0, h1, he⟩ :=
        generateAllMain_equiv cfg env cfg.zones hperm hts hpy hmono
      refine ⟨s0, s1, ?_, ?_, he⟩
      · unfold generateAll
        simp only [hz, if_false]
        exact h0
      · unfold generateAll
        simp only [hz, if_false]
        exact h1
    · by_cases hzs : zs.isEmpty = true
      · obtain ⟨s0, s1, h0, h1, he⟩ :=
          generateAllMain_equiv cfg env cfg.zones hperm hts hpy hmono
        refine ⟨s0, s1, ?_, ?_, he⟩
        · unfold generateAll
          simp only [hz, hzs, if_false, if_true]
          exact h0
        · unfold generateAll
          simp only [hz, hzs, if_false, if_true]
          exact h1
      · by_cases hztp : (cfg.zones.filter fun p => zs.contains p.1).isEmpty = true
        · refine ⟨zeroSummary, zeroSummary, ?_, ?_, summaryEquiv_refl _⟩ <;>
            · unfold generateAll
              simp only [hz, hzs, hztp, Bool.false_eq_true, if_false, if_true]
        · obtain ⟨s0, s1, h0, h1, he⟩ := generateAllMain_equiv cfg env
            (cfg.zones.filter fun p => zs.contains p.1) hperm hts hpy hmono
          refine ⟨s0, s1, ?_, ?_, he⟩
          · unfold generateAll
            simp only [hz, hzs, hztp, if_false]
            exact h0
          · unfold generateAll
            simp only [hz, hzs, hztp, if_false]
            exact h1

/-- Witness for C5 amended: the two-zone all-success configuration. -/
theorem c5_sequential_parallel_equivalence_witness :
    ∃ s0 s1,
      generateAll { cfgBase with enable_multithreading := false } envAllOk none = .ok s0 ∧
      generateAll { cfgBase with enable_multithreading := true } envAllOk none = .ok s1 ∧
      summaryEquiv s0 s1 :=
  c5_sequential_parallel_equivalence cfgBase envAllOk none
    (by intro α l; exact List.Perm.refl l) rfl rfl rfl

end DjangoRevolution
